import Mathlib

/-!
# Verification of the GNSS outage-prediction dashboard (Deekshith1804/gnss2)

Shallow embedding of the Python sources `location_mode.py`, `route_mode.py`,
`gnss_model.py` and `route_utils.py`.

Python floats are modelled as rationals (`ℚ`), Python ints as `ℤ`.
The third-party pseudo-random libraries (`numpy.random.default_rng` for the
seeded generators, the process-global `random` module for the auxiliary
helper) are modelled by deterministic streams of unit-interval rationals
produced by a 64-bit linear congruential generator; draws honour the
documented output ranges of each library call (`uniform a b` lands in
`[a, b)`, `integers lo hi` is an integer in `[lo, hi)`, Python's
`randint lo hi` is an integer in `[lo, hi]`, and the exponential draw is a
nonnegative monotone transform of a unit draw, standing in for the
logarithmic inverse CDF which is not rational).  External HTTP services
(weather, geocoding, routing) are modelled as oracle arguments returning
either a parsed response or a failure, mirroring how the Python code either
parses `r.json()` or lands in an `except` branch.
-/

namespace GNSS

/-- Python `int(q)`: truncation toward zero of a rational. -/
def pyInt (q : ℚ) : ℤ := q.num.tdiv q.den

/-- One step of the 64-bit LCG that models the underlying bit stream of the
pseudo-random libraries. -/
def lcgNext (s : ℕ) : ℕ := (6364136223846793005 * s + 1442695040888963407) % 2 ^ 64

/-- The `i`-th 64-bit word of the stream started from integer seed `s`. -/
def lcgWord (s : ℤ) : ℕ → ℕ
  | 0 => lcgNext ((s % 2 ^ 64).toNat)
  | i + 1 => lcgNext (lcgWord s i)

/-- The `i`-th unit-interval draw of the stream with seed `s`; lies in `[0, 1)`. -/
def unitDraw (s : ℤ) (i : ℕ) : ℚ := (lcgWord s i : ℚ) / 2 ^ 64

/-- State of a seeded `numpy.random.Generator`: its seed and how many draws
have been consumed. -/
structure NpRng where
  seed : ℤ
  pos : ℕ
deriving Repr

/-- Consume one unit-interval draw. -/
def NpRng.unit (g : NpRng) : ℚ × NpRng :=
  (unitDraw g.seed g.pos, ⟨g.seed, g.pos + 1⟩)

/-- `rng.uniform(a, b)`: one draw, uniform on `[a, b)`. -/
def NpRng.uniform (a b : ℚ) (g : NpRng) : ℚ × NpRng :=
  let (u, g1) := g.unit
  (a + u * (b - a), g1)

/-- `rng.exponential(scale)`: one nonnegative draw.  The true inverse CDF is
`-scale * log (1 - u)`; it is modelled by the monotone nonnegative rational
surrogate `scale * u / (1 - u)`, which preserves determinism and sign. -/
def NpRng.exponential (scale : ℚ) (g : NpRng) : ℚ × NpRng :=
  let (u, g1) := g.unit
  (scale * u / (1 - u), g1)

/-- `rng.integers(lo, hi)`: one integer draw uniform on the half-open range
`[lo, hi)` (numpy's default endpoint convention). -/
def NpRng.integers (lo hi : ℤ) (g : NpRng) : ℤ × NpRng :=
  let (u, g1) := g.unit
  (lo + ⌊u * ((hi : ℚ) - (lo : ℚ))⌋, g1)

/-- `rng.uniform(a, b, n)`: a vector of `n` uniform draws on `[a, b)`. -/
def NpRng.uniformN (a b : ℚ) (n : ℕ) (g : NpRng) : List ℚ × NpRng :=
  ((List.range n).map fun i => a + unitDraw g.seed (g.pos + i) * (b - a),
   ⟨g.seed, g.pos + n⟩)

/-- `rng.exponential(scale, n)`: a vector of `n` exponential draws. -/
def NpRng.exponentialN (scale : ℚ) (n : ℕ) (g : NpRng) : List ℚ × NpRng :=
  ((List.range n).map fun i =>
      scale * unitDraw g.seed (g.pos + i) / (1 - unitDraw g.seed (g.pos + i)),
   ⟨g.seed, g.pos + n⟩)

/-- `rng.integers(lo, hi, n)`: a vector of `n` integer draws on `[lo, hi)`. -/
def NpRng.integersN (lo hi : ℤ) (n : ℕ) (g : NpRng) : List ℤ × NpRng :=
  ((List.range n).map fun i =>
      lo + ⌊unitDraw g.seed (g.pos + i) * ((hi : ℚ) - (lo : ℚ))⌋,
   ⟨g.seed, g.pos + n⟩)

/-! ## location_mode.py -/

/-- The seed derived by `seeded_rng` in `location_mode.py`:
`int(lat * 1000 + lon * 1000 + dt.timestamp()) % 100000`.
`ts` is the POSIX timestamp of `dt`. -/
def seededSeed (lat lon ts : ℚ) : ℤ :=
  pyInt (lat * 1000 + lon * 1000 + ts) % 100000

/-- `seeded_rng(lat, lon, dt)`: a fresh generator initialised with the derived
seed. -/
def seeded_rng (lat lon ts : ℚ) : NpRng := ⟨seededSeed lat lon ts, 0⟩

/-- `get_fixed_values(lat, lon, dt)`: four successive draws
(cloud, rain, tec, kp) from the seeded generator. -/
def get_fixed_values (lat lon ts : ℚ) : ℚ × ℚ × ℚ × ℤ :=
  let g := seeded_rng lat lon ts
  let (cloud, g1) := g.uniform 0 100
  let (rain, g2) := g1.exponential 2
  let (tec, g3) := g2.uniform 20 80
  let (kp, _) := g3.integers 0 10
  (cloud, rain, tec, kp)

/-- One row of the simulated population data frame. -/
structure SimRow where
  lat : ℚ
  lon : ℚ
  cloud : ℚ
  rain : ℚ
  tec : ℚ
  kp : ℤ
deriving Repr, DecidableEq

/-- `simulate_points(n, lat, lon, dt)`: a data frame of `n` rows whose column
vectors are drawn in order (lat, lon, cloud, rain, tec, kp) from the seeded
generator. -/
def simulate_points (n : ℕ) (lat lon ts : ℚ) : List SimRow :=
  let g := seeded_rng lat lon ts
  let (lats, g1) := g.uniformN (lat - 5) (lat + 5) n
  let (lons, g2) := g1.uniformN (lon - 5) (lon + 5) n
  let (clouds, g3) := g2.uniformN 0 100 n
  let (rains, g4) := g3.exponentialN 2 n
  let (tecs, g5) := g4.uniformN 20 80 n
  let (kps, _) := g5.integersN 0 10 n
  (List.range n).map fun i =>
    { lat := lats.getD i 0, lon := lons.getD i 0, cloud := clouds.getD i 0,
      rain := rains.getD i 0, tec := tecs.getD i 0, kp := kps.getD i 0 }

/-- `predict_outage(cloud, rain, tec, kp)` — Profile A:
`cloud > 70 and rain > 1 and tec > 25 and kp >= 5`. -/
def predict_outage (cloud rain tec : ℚ) (kp : ℤ) : Bool :=
  decide (cloud > 70) && decide (rain > 1) && decide (tec > 25) && decide (kp ≥ 5)

/-- Range check for one simulated row around the center (clat, clon): cloud
in [0, 100], kp in [0, 9], rain nonnegative, tec in [20, 80], and the
scattered lat/lon within ±5 degrees of the center. -/
def simRowOk (clat clon : ℚ) (r : SimRow) : Bool :=
  decide (clat - 5 ≤ r.lat) && decide (r.lat ≤ clat + 5) &&
  decide (clon - 5 ≤ r.lon) && decide (r.lon ≤ clon + 5) &&
  decide (0 ≤ r.cloud) && decide (r.cloud ≤ 100) &&
  decide (0 ≤ r.rain) &&
  decide (20 ≤ r.tec) && decide (r.tec ≤ 80) &&
  decide (0 ≤ r.kp) && decide (r.kp ≤ 9)

/-- `fetch_openweather`: on any transport/HTTP failure the exception
propagates (`r.raise_for_status()`, no `except` block); on success each
3-hour entry becomes a record with cloud cover and rain accumulation
defaulting to 0 when absent (`e.get("rain", {}).get("3h", 0.0)`). -/
structure WEntry where
  dt : ℤ
  clouds : ℚ
  rain3h : Option ℚ
deriving Repr, DecidableEq

/-- A parsed forecast record of `fetch_openweather`. -/
structure WRecord where
  time : ℤ
  cloud : ℚ
  rain : ℚ
deriving Repr, DecidableEq

/-- `fetch_openweather(lat, lon)` over an oracle response: failure propagates,
success is parsed into records. -/
def fetch_openweather (resp : Except String (List WEntry)) :
    Except String (List WRecord) :=
  match resp with
  | .error e => .error e
  | .ok entries =>
    .ok (entries.map fun e => { time := e.dt, cloud := e.clouds, rain := e.rain3h.getD 0 })

/-- Outcome of one `geolocator.geocode(query)` call in `geocode_place`:
a caught timeout/unavailability, a `None` result, or a hit with coordinates
and a raw display name. -/
inductive GeocodeOutcome where
  | timeout
  | notFound
  | found (lat lon : ℚ) (displayName : String)
deriving Repr, DecidableEq

/-- `display_name.split(",")[0]`. -/
def firstField (s : String) : String := (s.splitOn ",").headD ""

/-- The attempt loop of `geocode_place`: try each query in order, skipping
timeouts and misses, returning the first hit. -/
def geocodeAttempt (geocoder : String → GeocodeOutcome) :
    List String → Option (ℚ × ℚ × String)
  | [] => none
  | q :: rest =>
    match geocoder q with
    | .found lat lon dn => some (lat, lon, firstField dn)
    | _ => geocodeAttempt geocoder rest

/-- `geocode_place(place)`: attempts `place` then `place + ", India"`, and
returns `None` when neither resolves. -/
def geocode_place (geocoder : String → GeocodeOutcome) (place : String) :
    Option (ℚ × ℚ × String) :=
  geocodeAttempt geocoder [place, place ++ ", India"]

/-- Session state of `show_location_mode` relevant to the fetch/predict flow. -/
structure Session where
  loc : Option (ℚ × ℚ × String)
  weather_df : Option (List WRecord)
  prediction_done : Bool
deriving Repr, DecidableEq

/-- The "Fetch Available Times" button handler: on a geocoding hit, stores the
location, then fetches the forecast.  A fetch failure aborts the run (second
component `some e`) with `weather_df` left as it was. -/
def fetch_times_step (s : Session) (geo : Option (ℚ × ℚ × String))
    (weatherResp : Except String (List WEntry)) : Session × Option String :=
  match geo with
  | none => (s, none)
  | some info =>
    let s1 := { s with loc := some info }
    match fetch_openweather weatherResp with
    | .error e => (s1, some e)
    | .ok w => ({ s1 with weather_df := some w, prediction_done := false }, none)

/-- The "Predict GNSS Outage" path of `show_location_mode`: it is reachable
only when `weather_df` is in the session (the function returns early with an
info message otherwise); it draws the fixed values, applies Profile A, and
builds the 3000-row training population labeled by the same rule.  `none`
means the early return: no classifier training happens. -/
def predict_step (s : Session) (dtSel : ℚ) :
    Option ((ℚ × ℚ × ℚ × ℤ) × Bool × List (SimRow × Bool)) :=
  match s.loc, s.weather_df with
  | some (lat, lon, _), some _ =>
    let fv := get_fixed_values lat lon dtSel
    let outage := predict_outage fv.1 fv.2.1 fv.2.2.1 fv.2.2.2
    let train := (simulate_points 3000 lat lon dtSel).map fun r =>
      (r, predict_outage r.cloud r.rain r.tec r.kp)
    some (fv, outage, train)
  | _, _ => none

/-! ## route_mode.py -/

/-- `get_outage_prediction(lat, lon, i)` — Profile B: seeds a fresh generator
with `int(lat * 10000 + lon * 10000 + i) % 100000` and applies the same draws
and thresholds as Profile A (short-circuit `and`, so later draws happen only
when earlier ones pass; the computed Boolean is unchanged). -/
def get_outage_prediction (lat lon : ℚ) (i : ℤ) : Bool :=
  let seed := pyInt (lat * 10000 + lon * 10000 + (i : ℚ)) % 100000
  let g : NpRng := ⟨seed, 0⟩
  let (cloud, g1) := g.uniform 0 100
  let (rain, g2) := g1.exponential 2
  let (tec, g3) := g2.uniform 20 80
  let (kp, _) := g3.integers 0 10
  decide (cloud > 70) && decide (rain > 1) && decide (tec > 25) && decide (kp ≥ 5)

/-- One feature of an ORS geocoding response: `geometry.coordinates` is
(lon, lat) and `properties.label` the display label. -/
structure GeoFeature where
  lon : ℚ
  lat : ℚ
  label : String
deriving Repr, DecidableEq

/-- `ors_geocode(place)`: `None` without an API key, on any request failure,
or when the feature list is empty; otherwise (lat, lon, label) of the first
feature. -/
def ors_geocode (hasKey : Bool) (resp : Except String (List GeoFeature)) :
    Option (ℚ × ℚ × String) :=
  if !hasKey then none
  else
    match resp with
    | .error _ => none
    | .ok [] => none
    | .ok (f :: _) => some (f.lat, f.lon, f.label)

/-- The `summary` object of a directions response: distance in meters,
duration in seconds. -/
structure RouteSummary where
  distance : ℚ
  duration : ℚ
deriving Repr, DecidableEq

/-- One feature of a directions response: the polyline as (lon, lat) pairs
plus the summary. -/
structure RouteFeature where
  geometry : List (ℚ × ℚ)
  summary : RouteSummary
deriving Repr, DecidableEq

/-- `get_route(start, end)`: geocodes both endpoints via `ors_geocode`
(raising `ValueError("Geocoding failed for start or end")` when either is
`None`), posts the coordinate pair to the directions provider (transport
failures propagate), raises `ValueError("No route found")` on an empty
feature list, and otherwise returns the (lat, lon) polyline, both endpoint
infos, and the summary. -/
def get_route (hasKey : Bool) (geoResp : String → Except String (List GeoFeature))
    (provider : List (ℚ × ℚ) → Except String (List RouteFeature))
    (start finish : String) :
    Except String (List (ℚ × ℚ) × (ℚ × ℚ × String) × (ℚ × ℚ × String) × RouteSummary) :=
  match ors_geocode hasKey (geoResp start), ors_geocode hasKey (geoResp finish) with
  | some sInfo, some eInfo =>
    let coords := [(sInfo.2.1, sInfo.1), (eInfo.2.1, eInfo.1)]
    match provider coords with
    | .error e => .error e
    | .ok [] => .error "No route found"
    | .ok (f :: _) =>
      .ok (f.geometry.map (fun p => (p.2, p.1)), sInfo, eInfo, f.summary)
  | _, _ => .error "Geocoding failed for start or end"

/-- The per-segment labels drawn by `show_route_mode`: one for every route
vertex after the first, from `get_outage_prediction` at the vertex's own
(lat, lon) and its 1-based index (`enumerate(route[1:], 1)`). -/
def routeLabels (route : List (ℚ × ℚ)) : List Bool :=
  (route.drop 1).enum.map fun p => get_outage_prediction p.2.1 p.2.2 ((p.1 : ℤ) + 1)

/-- The summary block rendered by `show_route_mode` under the map. -/
structure RouteSummaryView where
  distKm : ℚ
  durMin : ℚ
  outageSegments : ℕ
  normalSegments : ℤ
deriving Repr, DecidableEq

/-- The metrics of `show_route_mode`: `summary['distance']/1000`,
`summary['duration']/60`, the count of outage labels, and
`len(route) - outages`. -/
def show_route_summary (route : List (ℚ × ℚ)) (summary : RouteSummary) :
    RouteSummaryView :=
  let outages := (routeLabels route).count true
  { distKm := summary.distance / 1000
    durMin := summary.duration / 60
    outageSegments := outages
    normalSegments := (route.length : ℤ) - (outages : ℤ) }

/-- The number of polylines drawn green by `show_route_mode` (label false). -/
def greenSegments (route : List (ℚ × ℚ)) : ℕ :=
  (routeLabels route).count false

/-! ## gnss_model.py -/

/-- The process-global `random` module state: an ambient stream of
unit-interval draws plus the position already consumed.  It is unseeded, so
two program runs (modelled by two different streams or positions) need not
agree. -/
structure PyRandom where
  draws : ℕ → ℚ
  pos : ℕ

/-- A well-formed global stream: every draw lies in `[0, 1)`. -/
def PyRandom.valid (r : PyRandom) : Prop :=
  ∀ i, 0 ≤ r.draws i ∧ r.draws i < 1

/-- Consume one draw from the global stream. -/
def PyRandom.next (r : PyRandom) : ℚ × PyRandom :=
  (r.draws r.pos, ⟨r.draws, r.pos + 1⟩)

/-- Python `random.randint(lo, hi)`: integer uniform on the INCLUSIVE range
`[lo, hi]`. -/
def pyRandint (lo hi : ℤ) (r : PyRandom) : ℤ × PyRandom :=
  (lo + ⌊r.next.1 * ((hi : ℚ) - (lo : ℚ) + 1)⌋, r.next.2)

/-- Python `random.uniform(a, b)`. -/
def pyUniform (a b : ℚ) (r : PyRandom) : ℚ × PyRandom :=
  (a + r.next.1 * (b - a), r.next.2)

/-- Python `round` to an integer: round half to even. -/
def roundHalfEven (q : ℚ) : ℤ :=
  if q - ⌊q⌋ < 1 / 2 then ⌊q⌋
  else if q - ⌊q⌋ > 1 / 2 then ⌊q⌋ + 1
  else if ⌊q⌋ % 2 = 0 then ⌊q⌋ else ⌊q⌋ + 1

/-- Python `round(q, 2)`. -/
def pyRound2 (q : ℚ) : ℚ := (roundHalfEven (q * 100) : ℚ) / 100

/-- `get_weather_data(lat, lon)`: the parsed cloud value on success (with the
nested `.get` defaulting to 0 handled by the oracle), and `random.randint(0,
100)` from the global stream on any failure. -/
def get_weather_data (weather : ℚ → ℚ → Except String ℚ) (lat lon : ℚ)
    (r : PyRandom) : ℚ × PyRandom :=
  match weather lat lon with
  | .ok c => (c, r)
  | .error _ =>
    let (v, r1) := pyRandint 0 100 r
    ((v : ℚ), r1)

/-- The place label produced by `get_place_name`: either the reverse-geocoded
address or the fallback formatted coordinate pair `f"{lat:.4f}, {lon:.4f}"`. -/
inductive PlaceLabel where
  | resolved (address : String)
  | coords (lat lon : ℚ)
deriving Repr, DecidableEq

/-- `get_place_name(lat, lon)`: the address on a hit, the coordinate fallback
on a miss or any exception. -/
def get_place_name (reverseGeo : ℚ → ℚ → Except String (Option String))
    (lat lon : ℚ) : PlaceLabel :=
  match reverseGeo lat lon with
  | .ok (some addr) => .resolved addr
  | _ => .coords lat lon

/-- One result row of `predict_outage_along_route`. -/
structure RouteRow where
  lat : ℚ
  lon : ℚ
  place : PlaceLabel
  cloud_cover : ℚ
  tec : ℚ
  geomagnetic : ℤ
  outage : Bool
deriving Repr, DecidableEq

/-- Python slice `l[::3]`: every third element starting from the first. -/
def everyThird : List α → List α
  | [] => []
  | [a] => [a]
  | [a, _] => [a]
  | a :: _ :: _ :: rest => a :: everyThird rest

/-- The body loop of `predict_outage_along_route` over the sampled points,
threading the global random state: fetched-or-fallback cloud, then a TEC
draw `round(uniform(1, 35), 2)`, then a Kp draw `randint(1, 9)`, then the
Profile C rule `cloud > 70 and tec > 20 and kp >= 6`. -/
def routeLoop (weather : ℚ → ℚ → Except String ℚ)
    (reverseGeo : ℚ → ℚ → Except String (Option String)) :
    List (ℚ × ℚ) → PyRandom → List RouteRow × PyRandom
  | [], r => ([], r)
  | (lat, lon) :: rest, r =>
    let cr := get_weather_data weather lat lon r
    let tu := pyUniform 1 35 cr.2
    let tec := pyRound2 tu.1
    let kr := pyRandint 1 9 tu.2
    let outage := decide (cr.1 > 70) && decide (tec > 20) && decide (kr.1 ≥ 6)
    let row : RouteRow :=
      { lat := lat, lon := lon, place := get_place_name reverseGeo lat lon,
        cloud_cover := cr.1, tec := tec, geomagnetic := kr.1, outage := outage }
    let tl := routeLoop weather reverseGeo rest kr.2
    (row :: tl.1, tl.2)

/-- `predict_outage_along_route(route_points)`: downsample by 3
(`route_points[::3]`) and run the loop. -/
def predict_outage_along_route (weather : ℚ → ℚ → Except String ℚ)
    (reverseGeo : ℚ → ℚ → Except String (Option String))
    (route_points : List (ℚ × ℚ)) (r : PyRandom) : List RouteRow × PyRandom :=
  routeLoop weather reverseGeo (everyThird route_points) r

/-! ## route_utils.py -/

/-- `get_route_coords(start, end)`: on success the (lat, lon) polyline with
distance and duration rounded to 2 decimals; any exception (transport
failure, or a missing/empty feature list while indexing `features[0]`) is
caught and the fallback `([], 0, 0)` returned. -/
def get_route_coords (resp : Except String (List RouteFeature)) :
    List (ℚ × ℚ) × ℚ × ℚ :=
  match resp with
  | .ok (f :: _) =>
    (f.geometry.map fun p => (p.2, p.1),
     pyRound2 (f.summary.distance / 1000), pyRound2 (f.summary.duration / 60))
  | _ => ([], 0, 0)

/-! ## Concrete test fixtures -/

/-- A geocoding oracle resolving the labels "A" and "B". -/
def geoRespA : String → Except String (List GeoFeature) := fun q =>
  if q = "A" then .ok [{ lon := 77, lat := 12, label := "A label" }]
  else if q = "B" then .ok [{ lon := 78, lat := 13, label := "B label" }]
  else .ok []

/-- A directions provider answering with a 3-point polyline and summary
{distance: 12000, duration: 900}. -/
def routeProv3 : List (ℚ × ℚ) → Except String (List RouteFeature) := fun _ =>
  .ok [{ geometry := [(77, 12), (155 / 2, 25 / 2), (78, 13)],
         summary := { distance := 12000, duration := 900 } }]

/-- The (lat, lon) polyline produced from `routeProv3`. -/
def route3 : List (ℚ × ℚ) := [(12, 77), (25 / 2, 155 / 2), (13, 78)]

/-- A weather oracle that always fails (timeout). -/
def weatherDown : ℚ → ℚ → Except String ℚ := fun _ _ => .error "timeout"

/-- A weather oracle that always reports 50% cloud cover. -/
def weatherFair : ℚ → ℚ → Except String ℚ := fun _ _ => .ok 50

/-- A reverse-geocoding oracle that never resolves an address. -/
def reverseMiss : ℚ → ℚ → Except String (Option String) := fun _ _ => .ok none

/-- A global random stream that always draws 0. -/
def randZero : PyRandom := ⟨fun _ => 0, 0⟩

/-- A global random stream that always draws 9/10. -/
def randHigh : PyRandom := ⟨fun _ => 9 / 10, 0⟩

/-- A four-vertex route used to exercise the downsampling helper. -/
def pts4 : List (ℚ × ℚ) := [(1, 2), (3, 4), (5, 6), (7, 8)]

/-- A geocoder that times out on every query. -/
def geoTimeout : String → GeocodeOutcome := fun _ => .timeout

/-- A geocoding oracle that returns no features for any query. -/
def geoEmpty : String → Except String (List GeoFeature) := fun _ => .ok []

/-- A directions provider that returns no route features. -/
def provEmpty : List (ℚ × ℚ) → Except String (List RouteFeature) := fun _ => .ok []

/-- A fresh location-mode session. -/
def freshSession : Session := { loc := none, weather_df := none, prediction_done := false }

/-- A default result row, used as the `headD` fallback. -/
def rowDefault : RouteRow :=
  { lat := 0, lon := 0, place := .coords 0 0, cloud_cover := 0, tec := 0,
    geomagnetic := 0, outage := false }

/-- The first result row of `predict_outage_along_route` on `pts4` with
`weatherFair`, `reverseMiss` and the all-zero stream. -/
def row4 : RouteRow :=
  ((predict_outage_along_route weatherFair reverseMiss pts4 randZero).1).headD rowDefault

/-! ## Basic facts about the modelled random streams -/

lemma lcgNext_lt (s : ℕ) : lcgNext s < 2 ^ 64 :=
  Nat.mod_lt _ (by norm_num)

lemma lcgWord_lt (s : ℤ) (i : ℕ) : lcgWord s i < 2 ^ 64 := by
  cases i <;> exact lcgNext_lt _

lemma unitDraw_nonneg (s : ℤ) (i : ℕ) : 0 ≤ unitDraw s i := by
  unfold unitDraw; positivity

lemma unitDraw_lt_one (s : ℤ) (i : ℕ) : unitDraw s i < 1 := by
  unfold unitDraw
  rw [div_lt_one (by positivity)]
  exact_mod_cast lcgWord_lt s i

lemma getD_map_range {β : Type} (f : ℕ → β) (d : β) {i n : ℕ} (h : i < n) :
    (((List.range n).map f).getD i d) = f i := by
  simp [List.getD, List.getElem?_map, List.getElem?_range, h]

lemma uniform_bound_lo (a b : ℚ) (h : a ≤ b) (s : ℤ) (i : ℕ) :
    a ≤ a + unitDraw s i * (b - a) :=
  le_add_of_nonneg_right (mul_nonneg (unitDraw_nonneg s i) (by linarith))

lemma uniform_bound_hi (a b : ℚ) (h : a ≤ b) (s : ℤ) (i : ℕ) :
    a + unitDraw s i * (b - a) ≤ b := by
  have h0 := unitDraw_nonneg s i
  have h1 := unitDraw_lt_one s i
  nlinarith

lemma exp_surrogate_nonneg (c : ℚ) (hc : 0 ≤ c) (s : ℤ) (i : ℕ) :
    0 ≤ c * unitDraw s i / (1 - unitDraw s i) := by
  have h0 := unitDraw_nonneg s i
  have h1 := unitDraw_lt_one s i
  exact div_nonneg (mul_nonneg hc h0) (by linarith)

lemma integersVal_lo (lo hi : ℤ) (h : lo ≤ hi) (s : ℤ) (i : ℕ) :
    lo ≤ lo + ⌊unitDraw s i * ((hi : ℚ) - (lo : ℚ))⌋ := by
  have h0 := unitDraw_nonneg s i
  have hq : (0 : ℚ) ≤ (hi : ℚ) - (lo : ℚ) := by exact_mod_cast sub_nonneg.mpr h
  have := Int.floor_nonneg.mpr (mul_nonneg h0 hq)
  omega

lemma integersVal_le (lo hi bound : ℤ) (h : lo < hi) (hb : hi - 1 ≤ bound)
    (s : ℤ) (i : ℕ) :
    lo + ⌊unitDraw s i * ((hi : ℚ) - (lo : ℚ))⌋ ≤ bound := by
  have h0 := unitDraw_nonneg s i
  have h1 := unitDraw_lt_one s i
  have hq : (0 : ℚ) < (hi : ℚ) - (lo : ℚ) := by exact_mod_cast sub_pos.mpr h
  have hlt : unitDraw s i * ((hi : ℚ) - (lo : ℚ)) < ((hi - lo : ℤ) : ℚ) := by
    push_cast
    nlinarith
  have := Int.floor_lt.mpr hlt
  omega

/-! ## Theorems about the claims -/

/-- C1: identical (lat, lon, timestamp) inputs give the identical derived
seed — which is `int(lat*1000 + lon*1000 + timestamp) mod 100000` — the
identical feature draws, and the identical simulated population; and the
route per-vertex predictor gives the identical label on identical
(lat, lon, index) inputs. -/
theorem seeded_scenario_deterministic
    (lat lon ts lat2 lon2 ts2 : ℚ) (n : ℕ) (rlat rlon rlat2 rlon2 : ℚ) (i i2 : ℤ)
    (h1 : lat = lat2) (h2 : lon = lon2) (h3 : ts = ts2)
    (h4 : rlat = rlat2) (h5 : rlon = rlon2) (h6 : i = i2) :
    seededSeed lat lon ts = seededSeed lat2 lon2 ts2 ∧
    seededSeed lat lon ts = pyInt (lat * 1000 + lon * 1000 + ts) % 100000 ∧
    get_fixed_values lat lon ts = get_fixed_values lat2 lon2 ts2 ∧
    simulate_points n lat lon ts = simulate_points n lat2 lon2 ts2 ∧
    get_outage_prediction rlat rlon i = get_outage_prediction rlat2 rlon2 i2 := by
  subst h1; subst h2; subst h3; subst h4; subst h5; subst h6
  exact ⟨rfl, rfl, rfl, rfl, rfl⟩

/-- Witness for C1 at concrete inputs. -/
theorem seeded_scenario_deterministic_witness :
    seededSeed 1 2 3 = seededSeed 1 2 3 ∧
    seededSeed 1 2 3 = pyInt (1 * 1000 + 2 * 1000 + 3) % 100000 ∧
    get_fixed_values 1 2 3 = get_fixed_values 1 2 3 ∧
    simulate_points 2 1 2 3 = simulate_points 2 1 2 3 ∧
    get_outage_prediction 4 5 6 = get_outage_prediction 4 5 6 :=
  seeded_scenario_deterministic 1 2 3 1 2 3 2 4 5 4 5 6 6 rfl rfl rfl rfl rfl rfl

/-- C2: Profile A declares an outage exactly when cloud > 70, rain > 1,
tec > 25 and kp ≥ 5 — the Kp comparison inclusive, the others strict — so a
vector violating any condition yields false. -/
theorem predict_outage_profileA_iff (cloud rain tec : ℚ) (kp : ℤ) :
    predict_outage cloud rain tec kp = true ↔
      (cloud > 70 ∧ rain > 1 ∧ tec > 25 ∧ kp ≥ 5) := by
  simp [predict_outage, and_assoc]

/-- C3: the simulated population of requested size `n` has exactly `n` rows,
each with all six columns in range: cloud ∈ [0, 100], kp an integer in
[0, 9], rain ≥ 0, tec ∈ [20, 80], lat/lon within ±5 degrees of the center. -/
theorem simulate_points_count_and_ranges (n : ℕ) (lat lon ts : ℚ) :
    (simulate_points n lat lon ts).length = n ∧
    (simulate_points n lat lon ts).all (simRowOk lat lon) = true := by
  constructor
  · simp [simulate_points, NpRng.uniformN, NpRng.exponentialN, NpRng.integersN]
  · rw [List.all_eq_true]
    intro row hrow
    simp only [simulate_points, NpRng.uniformN, NpRng.exponentialN, NpRng.integersN,
      List.mem_map, List.mem_range] at hrow
    obtain ⟨i, hi, rfl⟩ := hrow
    simp only [simRowOk, getD_map_range _ _ hi, Bool.and_eq_true, decide_eq_true_eq]
    refine ⟨⟨⟨⟨⟨⟨⟨⟨⟨⟨?_, ?_⟩, ?_⟩, ?_⟩, ?_⟩, ?_⟩, ?_⟩, ?_⟩, ?_⟩, ?_⟩, ?_⟩
    · exact uniform_bound_lo _ _ (by linarith) _ _
    · exact uniform_bound_hi _ _ (by linarith) _ _
    · exact uniform_bound_lo _ _ (by linarith) _ _
    · exact uniform_bound_hi _ _ (by linarith) _ _
    · exact uniform_bound_lo _ _ (by norm_num) _ _
    · exact uniform_bound_hi _ _ (by norm_num) _ _
    · exact exp_surrogate_nonneg _ (by norm_num) _ _
    · exact uniform_bound_lo _ _ (by norm_num) _ _
    · exact uniform_bound_hi _ _ (by norm_num) _ _
    · exact integersVal_lo 0 10 (by norm_num) _ _
    · exact integersVal_le 0 10 9 (by norm_num) (by norm_num) _ _

lemma count_false_add_count_true (l : List Bool) :
    l.count false + l.count true = l.length := by
  induction l with
  | nil => rfl
  | cons b t ih => cases b <;> simp [List.count_cons] <;> omega

/-- C4: with both endpoints resolving and a 3-point polyline with summary
{distance: 12000, duration: 900}, the route mode reports 12.0 km and
15.0 min, and labels exactly the 2 vertices after the first, each by its own
(lat, lon) and 1-based index. -/
theorem route_pipeline_concrete :
    get_route true geoRespA routeProv3 "A" "B" =
      .ok (route3, (12, 77, "A label"), (13, 78, "B label"),
           { distance := 12000, duration := 900 }) ∧
    (show_route_summary route3 { distance := 12000, duration := 900 }).distKm = 12 ∧
    (show_route_summary route3 { distance := 12000, duration := 900 }).durMin = 15 ∧
    routeLabels route3 =
      [get_outage_prediction (25 / 2) (155 / 2) 1, get_outage_prediction 13 78 2] ∧
    (routeLabels route3).length = 2 :=
  ⟨rfl, by norm_num [show_route_summary], by norm_num [show_route_summary], rfl, rfl⟩

/-- C9: for a displayed route with V vertices, Outage Segments + Normal
Segments = V, while only V − 1 segments are labeled and drawn, so the
displayed Normal Segments exceeds the green-drawn segments by exactly one. -/
theorem route_summary_segment_counts (route : List (ℚ × ℚ)) (summary : RouteSummary)
    (h : route ≠ []) :
    ((show_route_summary route summary).outageSegments : ℤ) +
        (show_route_summary route summary).normalSegments = (route.length : ℤ) ∧
    (routeLabels route).length = route.length - 1 ∧
    (show_route_summary route summary).normalSegments = (greenSegments route : ℤ) + 1 := by
  have hlen : (routeLabels route).length = route.length - 1 := by
    simp [routeLabels]
  have hpos : 1 ≤ route.length := List.length_pos.mpr h
  have hcount := count_false_add_count_true (routeLabels route)
  have hle : (routeLabels route).count true ≤ (routeLabels route).length :=
    List.count_le_length _ _
  refine ⟨?_, hlen, ?_⟩
  · simp only [show_route_summary]
    ring
  · simp only [show_route_summary, greenSegments]
    omega

lemma pyRandint_bounds (lo hi : ℤ) (h : lo ≤ hi) (r : PyRandom) (hr : r.valid) :
    lo ≤ (pyRandint lo hi r).1 ∧ (pyRandint lo hi r).1 ≤ hi := by
  obtain ⟨h0, h1⟩ := hr r.pos
  unfold pyRandint PyRandom.next
  simp only
  have hq : (0 : ℚ) < (hi : ℚ) - (lo : ℚ) + 1 := by
    have : (lo : ℚ) ≤ (hi : ℚ) := by exact_mod_cast h
    linarith
  constructor
  · have := Int.floor_nonneg.mpr (mul_nonneg h0 (le_of_lt hq))
    omega
  · have hlt : r.draws r.pos * ((hi : ℚ) - (lo : ℚ) + 1) < ((hi - lo + 1 : ℤ) : ℚ) := by
      push_cast
      nlinarith
    have := Int.floor_lt.mpr hlt
    omega

lemma randZero_valid : randZero.valid := by
  intro i
  constructor <;> norm_num [randZero]

lemma randHigh_valid : randHigh.valid := by
  intro i
  constructor <;> norm_num [randHigh]

/-- C5: a weather-forecast fetch failure propagates as an exception in
location mode — the session keeps no forecast and the predict path (and with
it classifier training) is never reached — while `get_weather_data` facing
the same failure substitutes a uniformly random cloud value in [0, 100] and
continues without raising. -/
theorem weather_failure_policies (e : String) (s : Session) (info : ℚ × ℚ × String)
    (dtSel : ℚ) (w : ℚ → ℚ → Except String ℚ) (lat lon : ℚ) (r : PyRandom)
    (hw : s.weather_df = none) (hfail : w lat lon = .error e) (hr : r.valid) :
    fetch_openweather (.error e) = .error e ∧
    (fetch_times_step s (some info) (.error e)).2 = some e ∧
    (fetch_times_step s (some info) (.error e)).1.weather_df = none ∧
    predict_step (fetch_times_step s (some info) (.error e)).1 dtSel = none ∧
    (get_weather_data w lat lon r).1 = ((pyRandint 0 100 r).1 : ℚ) ∧
    0 ≤ (get_weather_data w lat lon r).1 ∧ (get_weather_data w lat lon r).1 ≤ 100 := by
  obtain ⟨hlo, hhi⟩ := pyRandint_bounds 0 100 (by norm_num) r hr
  refine ⟨rfl, rfl, hw, ?_, ?_, ?_, ?_⟩
  · obtain ⟨a, b, c⟩ := info
    simp [predict_step, fetch_times_step, fetch_openweather, hw]
  · simp [get_weather_data, hfail]
  · simp only [get_weather_data, hfail]
    exact_mod_cast hlo
  · simp only [get_weather_data, hfail]
    exact_mod_cast hhi

/-- Witness for C5: a concrete timeout against a fresh session and the
all-zero ambient stream. -/
theorem weather_failure_policies_witness :
    fetch_openweather (.error "timeout") = .error "timeout" ∧
    (fetch_times_step freshSession (some (1, 2, "P")) (.error "timeout")).2 = some "timeout" ∧
    (fetch_times_step freshSession (some (1, 2, "P")) (.error "timeout")).1.weather_df = none ∧
    predict_step (fetch_times_step freshSession (some (1, 2, "P")) (.error "timeout")).1 0 = none ∧
    (get_weather_data weatherDown 0 0 randZero).1 = ((pyRandint 0 100 randZero).1 : ℚ) ∧
    0 ≤ (get_weather_data weatherDown 0 0 randZero).1 ∧
    (get_weather_data weatherDown 0 0 randZero).1 ≤ 100 :=
  weather_failure_policies "timeout" freshSession (1, 2, "P") 0 weatherDown 0 0 randZero
    rfl rfl randZero_valid

/-- C6: when the provider yields no features or times out, both forward
geocoders return the `None` sentinel instead of raising: `geocode_place`
after both of its attempts, and `ors_geocode` on a failed request or an
empty feature list. -/
theorem forward_geocode_sentinel (geocoder : String → GeocodeOutcome) (place : String)
    (hg : ∀ q, geocoder q = .timeout ∨ geocoder q = .notFound)
    (hasKey : Bool) (e : String) :
    geocode_place geocoder place = none ∧
    ors_geocode hasKey (.error e) = none ∧
    ors_geocode hasKey (.ok []) = none := by
  refine ⟨?_, ?_, ?_⟩
  · rcases hg place with h1 | h1 <;> rcases hg (place ++ ", India") with h2 | h2 <;>
      simp [geocode_place, geocodeAttempt, h1, h2]
  · cases hasKey <;> rfl
  · cases hasKey <;> rfl

/-- Witness for C6: a geocoder that always times out, on the query "Pune". -/
theorem forward_geocode_sentinel_witness :
    geocode_place geoTimeout "Pune" = none ∧
    ors_geocode true (.error "timeout") = none ∧
    ors_geocode true (.ok []) = none :=
  forward_geocode_sentinel geoTimeout "Pune" (fun _ => Or.inl rfl) true "timeout"

/-- C7 counterexample: `route_utils.get_route_coords` DOES return a fallback
value — on a failed request or a response with no route features it is
caught by its `except` clause and `([], 0, 0)` is returned, contradicting
the claim that the route-directions operation never returns a fallback. -/
theorem get_route_coords_returns_fallback :
    get_route_coords (.error "connection error") = ([], 0, 0) ∧
    get_route_coords (.ok []) = ([], 0, 0) :=
  ⟨rfl, rfl⟩

/-- C7 (amended): `route_mode.get_route` raises the descriptive errors —
"Geocoding failed for start or end" when either endpoint fails to geocode,
"No route found" when the provider returns no route feature — while the
auxiliary `route_utils.get_route_coords` instead swallows such failures and
returns the fallback `([], 0, 0)`. -/
theorem get_route_raises_descriptive_errors
    (hasKey : Bool) (geoResp : String → Except String (List GeoFeature))
    (provider : List (ℚ × ℚ) → Except String (List RouteFeature))
    (start finish : String) :
    ((ors_geocode hasKey (geoResp start) = none ∨
        ors_geocode hasKey (geoResp finish) = none) →
      get_route hasKey geoResp provider start finish =
        .error "Geocoding failed for start or end") ∧
    (∀ sInfo eInfo, ors_geocode hasKey (geoResp start) = some sInfo →
        ors_geocode hasKey (geoResp finish) = some eInfo →
        provider [(sInfo.2.1, sInfo.1), (eInfo.2.1, eInfo.1)] = .ok [] →
        get_route hasKey geoResp provider start finish = .error "No route found") ∧
    get_route_coords (.error "connection error") = ([], 0, 0) ∧
    get_route_coords (.ok []) = ([], 0, 0) := by
  refine ⟨?_, ?_, rfl, rfl⟩
  · intro h
    rcases h with h | h
    · simp only [get_route, h]
    · cases hstart : ors_geocode hasKey (geoResp start) <;>
        simp only [get_route, h, hstart]
  · intro sInfo eInfo hs he hp
    simp only [get_route, hs, he, hp]

/-- Witness for C7 (amended): a provider with no features for any query. -/
theorem get_route_raises_descriptive_errors_witness :
    get_route true geoEmpty provEmpty "A" "B" = .error "Geocoding failed for start or end" :=
  (get_route_raises_descriptive_errors true geoEmpty provEmpty "A" "B").1 (Or.inl rfl)

lemma headD_mem {α : Type} (d : α) {l : List α} (h : l ≠ []) : l.headD d ∈ l := by
  cases l with
  | nil => exact absurd rfl h
  | cons a t => simp

lemma valid_of_draws_eq {r1 r2 : PyRandom} (h : r2.draws = r1.draws)
    (hv : r1.valid) : r2.valid := by
  intro i
  rw [h]
  exact hv i

lemma get_weather_data_draws (w : ℚ → ℚ → Except String ℚ) (lat lon : ℚ)
    (r : PyRandom) : ((get_weather_data w lat lon r).2).draws = r.draws := by
  unfold get_weather_data
  cases w lat lon <;> rfl

lemma routeLoop_latlon (w : ℚ → ℚ → Except String ℚ)
    (g : ℚ → ℚ → Except String (Option String)) (l : List (ℚ × ℚ)) :
    ∀ r : PyRandom, ((routeLoop w g l r).1.map fun row => (row.lat, row.lon)) = l := by
  induction l with
  | nil => intro r; rfl
  | cons p rest ih =>
    intro r
    obtain ⟨lat, lon⟩ := p
    simp [routeLoop, ih]

lemma routeLoop_outage (w : ℚ → ℚ → Except String ℚ)
    (g : ℚ → ℚ → Except String (Option String)) (l : List (ℚ × ℚ)) :
    ∀ r : PyRandom, ∀ row ∈ (routeLoop w g l r).1,
      row.outage = (decide (row.cloud_cover > 70) && decide (row.tec > 20) &&
        decide (row.geomagnetic ≥ 6)) := by
  induction l with
  | nil =>
    intro r row h
    simp [routeLoop] at h
  | cons p rest ih =>
    intro r row h
    obtain ⟨lat, lon⟩ := p
    simp only [routeLoop, List.mem_cons] at h
    rcases h with h | h
    · subst h; rfl
    · exact ih _ row h

lemma routeLoop_kp (w : ℚ → ℚ → Except String ℚ)
    (g : ℚ → ℚ → Except String (Option String)) (l : List (ℚ × ℚ)) :
    ∀ r : PyRandom, r.valid → ∀ row ∈ (routeLoop w g l r).1,
      1 ≤ row.geomagnetic ∧ row.geomagnetic ≤ 9 := by
  induction l with
  | nil =>
    intro r _ row h
    simp [routeLoop] at h
  | cons p rest ih =>
    intro r hv row h
    obtain ⟨lat, lon⟩ := p
    have hv1 : ((get_weather_data w lat lon r).2).valid :=
      valid_of_draws_eq (get_weather_data_draws w lat lon r) hv
    have hv2 : ((pyUniform 1 35 (get_weather_data w lat lon r).2).2).valid :=
      valid_of_draws_eq rfl hv1
    have hv3 : ((pyRandint 1 9 (pyUniform 1 35 (get_weather_data w lat lon r).2).2).2).valid :=
      valid_of_draws_eq rfl hv2
    simp only [routeLoop, List.mem_cons] at h
    rcases h with h | h
    · subst h
      exact pyRandint_bounds 1 9 (by norm_num) _ hv2
    · exact ih _ hv3 row h

/-- C8: the auxiliary route helper evaluates exactly every third route point
starting from the first vertex, and each sampled row's outage flag is
exactly (cloud > 70 and tec > 20 and kp ≥ 6) over that row's
fetched-or-fallback cloud and randomly drawn TEC and Kp. -/
theorem predict_outage_along_route_sampling
    (weather : ℚ → ℚ → Except String ℚ)
    (reverseGeo : ℚ → ℚ → Except String (Option String))
    (pts : List (ℚ × ℚ)) (r : PyRandom) :
    ((predict_outage_along_route weather reverseGeo pts r).1.map
        fun row => (row.lat, row.lon)) = everyThird pts ∧
    ∀ row ∈ (predict_outage_along_route weather reverseGeo pts r).1,
      row.outage = (decide (row.cloud_cover > 70) && decide (row.tec > 20) &&
        decide (row.geomagnetic ≥ 6)) :=
  ⟨routeLoop_latlon weather reverseGeo (everyThird pts) r,
   routeLoop_outage weather reverseGeo (everyThird pts) r⟩

/-- Witness for C8 on a concrete four-vertex route with a live weather
oracle and the all-zero ambient stream. -/
theorem predict_outage_along_route_sampling_witness :
    ((predict_outage_along_route weatherFair reverseMiss pts4 randZero).1.map
        fun row => (row.lat, row.lon)) = everyThird pts4 ∧
    row4.outage = (decide (row4.cloud_cover > 70) && decide (row4.tec > 20) &&
      decide (row4.geomagnetic ≥ 6)) := by
  have hthm := predict_outage_along_route_sampling weatherFair reverseMiss pts4 randZero
  have hlen : (predict_outage_along_route weatherFair reverseMiss pts4 randZero).1.length = 2 := rfl
  have hne : (predict_outage_along_route weatherFair reverseMiss pts4 randZero).1 ≠ [] := by
    intro hcon
    rw [hcon] at hlen
    simp at hlen
  exact ⟨hthm.1, hthm.2 row4 (headD_mem _ hne)⟩

/-- C10: the auxiliary route helper is NOT deterministic in its route input —
two ambient global-random states give different TEC, Kp and outage values on
the identical route list — and its Kp draw always lies in [1, 9], never 0. -/
theorem route_helper_nondeterministic :
    (∃ (pts : List (ℚ × ℚ)) (w : ℚ → ℚ → Except String ℚ)
        (g : ℚ → ℚ → Except String (Option String)) (r1 r2 : PyRandom),
      r1.valid ∧ r2.valid ∧
      ((predict_outage_along_route w g pts r1).1.headD rowDefault).tec ≠
        ((predict_outage_along_route w g pts r2).1.headD rowDefault).tec ∧
      ((predict_outage_along_route w g pts r1).1.headD rowDefault).geomagnetic ≠
        ((predict_outage_along_route w g pts r2).1.headD rowDefault).geomagnetic ∧
      ((predict_outage_along_route w g pts r1).1.headD rowDefault).outage ≠
        ((predict_outage_along_route w g pts r2).1.headD rowDefault).outage ∧
      (predict_outage_along_route w g pts r1).1 ≠
        (predict_outage_along_route w g pts r2).1) ∧
    (∀ (w : ℚ → ℚ → Except String ℚ) (g : ℚ → ℚ → Except String (Option String))
        (pts : List (ℚ × ℚ)) (r : PyRandom), r.valid →
      ∀ row ∈ (predict_outage_along_route w g pts r).1,
        1 ≤ row.geomagnetic ∧ row.geomagnetic ≤ 9) := by
  constructor
  · refine ⟨[(0, 0)], weatherDown, reverseMiss, randZero, randHigh,
      randZero_valid, randHigh_valid, ?_, ?_, ?_, ?_⟩
    · have ha : ((predict_outage_along_route weatherDown reverseMiss [(0, 0)] randZero).1.headD rowDefault).tec = 1 := by
        simp only [predict_outage_along_route, everyThird, routeLoop, get_weather_data,
          weatherDown, reverseMiss, get_place_name, pyUniform, pyRandint, PyRandom.next,
          randZero, pyRound2, roundHalfEven, List.headD]
        norm_num
      have hb : ((predict_outage_along_route weatherDown reverseMiss [(0, 0)] randHigh).1.headD rowDefault).tec = 158 / 5 := by
        simp only [predict_outage_along_route, everyThird, routeLoop, get_weather_data,
          weatherDown, reverseMiss, get_place_name, pyUniform, pyRandint, PyRandom.next,
          randHigh, pyRound2, roundHalfEven, List.headD]
        norm_num
      rw [ha, hb]
      norm_num
    · have ha : ((predict_outage_along_route weatherDown reverseMiss [(0, 0)] randZero).1.headD rowDefault).geomagnetic = 1 := by
        simp only [predict_outage_along_route, everyThird, routeLoop, get_weather_data,
          weatherDown, reverseMiss, get_place_name, pyUniform, pyRandint, PyRandom.next,
          randZero, List.headD]
        norm_num
      have hb : ((predict_outage_along_route weatherDown reverseMiss [(0, 0)] randHigh).1.headD rowDefault).geomagnetic = 9 := by
        simp only [predict_outage_along_route, everyThird, routeLoop, get_weather_data,
          weatherDown, reverseMiss, get_place_name, pyUniform, pyRandint, PyRandom.next,
          randHigh, List.headD]
        norm_num
      rw [ha, hb]
      norm_num
    · have ha : ((predict_outage_along_route weatherDown reverseMiss [(0, 0)] randZero).1.headD rowDefault).outage = false := by
        simp only [predict_outage_along_route, everyThird, routeLoop, get_weather_data,
          weatherDown, reverseMiss, get_place_name, pyUniform, pyRandint, PyRandom.next,
          randZero, pyRound2, roundHalfEven, List.headD]
        norm_num
      have hb : ((predict_outage_along_route weatherDown reverseMiss [(0, 0)] randHigh).1.headD rowDefault).outage = true := by
        simp only [predict_outage_along_route, everyThird, routeLoop, get_weather_data,
          weatherDown, reverseMiss, get_place_name, pyUniform, pyRandint, PyRandom.next,
          randHigh, pyRound2, roundHalfEven, List.headD]
        norm_num
      rw [ha, hb]
      simp
    · intro hcon
      have ha : ((predict_outage_along_route weatherDown reverseMiss [(0, 0)] randZero).1.headD rowDefault).outage = false := by
        simp only [predict_outage_along_route, everyThird, routeLoop, get_weather_data,
          weatherDown, reverseMiss, get_place_name, pyUniform, pyRandint, PyRandom.next,
          randZero, pyRound2, roundHalfEven, List.headD]
        norm_num
      have hb : ((predict_outage_along_route weatherDown reverseMiss [(0, 0)] randHigh).1.headD rowDefault).outage = true := by
        simp only [predict_outage_along_route, everyThird, routeLoop, get_weather_data,
          weatherDown, reverseMiss, get_place_name, pyUniform, pyRandint, PyRandom.next,
          randHigh, pyRound2, roundHalfEven, List.headD]
        norm_num
      rw [hcon] at ha
      exact absurd (ha.symm.trans hb) (by simp)
  · intro w g pts r hv row h
    exact routeLoop_kp w g (everyThird pts) r hv row h

/-- Witness for C10: the Kp bound evaluated on the concrete first row of the
helper run from the witness fixtures. -/
theorem route_helper_nondeterministic_witness :
    1 ≤ row4.geomagnetic ∧ row4.geomagnetic ≤ 9 := by
  have hlen : (predict_outage_along_route weatherFair reverseMiss pts4 randZero).1.length = 2 := rfl
  have hne : (predict_outage_along_route weatherFair reverseMiss pts4 randZero).1 ≠ [] := by
    intro hcon
    rw [hcon] at hlen
    simp at hlen
  exact route_helper_nondeterministic.2 weatherFair reverseMiss pts4 randZero
    randZero_valid row4 (headD_mem _ hne)

/-- Witness for C9 on a concrete two-vertex route. -/
theorem route_summary_segment_counts_witness :
    ((show_route_summary [((0 : ℚ), (0 : ℚ)), (1, 1)] { distance := 1000, duration := 60 }).outageSegments : ℤ) +
        (show_route_summary [((0 : ℚ), (0 : ℚ)), (1, 1)] { distance := 1000, duration := 60 }).normalSegments =
        (([((0 : ℚ), (0 : ℚ)), (1, 1)] : List (ℚ × ℚ)).length : ℤ) ∧
    (routeLabels [((0 : ℚ), (0 : ℚ)), (1, 1)]).length =
        ([((0 : ℚ), (0 : ℚ)), (1, 1)] : List (ℚ × ℚ)).length - 1 ∧
    (show_route_summary [((0 : ℚ), (0 : ℚ)), (1, 1)] { distance := 1000, duration := 60 }).normalSegments =
        (greenSegments [((0 : ℚ), (0 : ℚ)), (1, 1)] : ℤ) + 1 :=
  route_summary_segment_counts [((0 : ℚ), (0 : ℚ)), (1, 1)]
    { distance := 1000, duration := 60 } (by simp)

end GNSS
